import Mathlib

/-!
Shallow embedding of the estimation core of the `datacenter-demand`
repository.  Python floats are modelled as exact rationals (`ℚ`) and Python
ints as `ℤ`.  The two modules `predictor.py` and
`datacenter_power_predictor.py` define field-identical dataclasses and
textually identical formula methods (`calculate_base_consumption`,
`calculate_business_context_multiplier`, `calculate_seasonal_factor`,
`assess_grid_impact`); each is embedded once below and shared.
-/

namespace Datacenter

/-- `DatacenterSpecs` dataclass. -/
structure DatacenterSpecs where
  server_count : ℤ
  rack_density : ℚ
  gpu_percentage : ℚ
  pue_rating : ℚ
  building_sqft : ℤ
  cooling_type : String
  state : String
deriving DecidableEq, Repr

/-- `BusinessContext` dataclass: eight business counts plus a radius. -/
structure BusinessContext where
  manufacturing_count : ℤ
  healthcare_count : ℤ
  education_count : ℤ
  commercial_office_count : ℤ
  retail_count : ℤ
  technology_hub_count : ℤ
  warehousing_count : ℤ
  financial_count : ℤ
  radius_km : ℚ := 5
deriving DecidableEq, Repr

/-- `GridInfrastructure` dataclass. -/
structure GridInfrastructure where
  grid_capacity : ℚ
  transmission_rating : ℚ
  substation_distance : ℚ := 2
  reliability_score : ℚ := 0.95
  renewable_percentage : ℚ := 0.25
deriving DecidableEq, Repr

/-- `EnvironmentalData` dataclass. -/
structure EnvironmentalData where
  temp_avg : ℚ
  humidity_avg : ℚ
  seasonal_variation : ℚ
  altitude : ℚ := 0
deriving DecidableEq, Repr

/-- Python `round(q)` to an integer: round-half-to-even. -/
def pyRoundHalfEven (q : ℚ) : ℤ :=
  let f := ⌊q⌋
  let r := q - (f : ℚ)
  if r < 1 / 2 then f
  else if 1 / 2 < r then f + 1
  else if f % 2 = 0 then f else f + 1

/-- Python `round(q, n)`. -/
def pyRound (n : ℕ) (q : ℚ) : ℚ := (pyRoundHalfEven (q * 10 ^ n) : ℚ) / 10 ^ n

/-- Python `int(q)`: truncation toward zero. -/
def pyIntTrunc (q : ℚ) : ℤ := if 0 ≤ q then ⌊q⌋ else ⌈q⌉

/-- Python `str.lower()` (character-wise lowercasing; the repository only
ever passes ASCII strings). -/
def pyLower (s : String) : String := String.mk (s.data.map Char.toLower)

/-- `0.25 if specs.cooling_type.lower() == 'liquid' else 0.4` — the cooling
overhead fraction chosen inside `calculate_base_consumption`.  Total on all
strings; no cooling type is ever rejected. -/
def cooling_efficiency (cooling_type : String) : ℚ :=
  if pyLower cooling_type = "liquid" then 0.25 else 0.4

/-- `calculate_base_consumption` (identical in both modules). -/
def calculate_base_consumption (specs : DatacenterSpecs) : ℚ :=
  let servers_per_rack : ℚ := 42 / 2
  let total_racks := (specs.server_count : ℚ) / servers_per_rack
  let base_server_power := total_racks * specs.rack_density
  let gpu_multiplier := 1 + specs.gpu_percentage * 2.5
  let server_power_kw := base_server_power * gpu_multiplier
  let cooling_power_kw := server_power_kw * cooling_efficiency specs.cooling_type
  let infrastructure_power_kw := (server_power_kw + cooling_power_kw) * 0.15
  let total_power_kw :=
    (server_power_kw + cooling_power_kw + infrastructure_power_kw) * specs.pue_rating
  total_power_kw / 1000

/-- `calculate_business_context_multiplier` (identical in both modules).
The Python loop over the eight category coefficients is unrolled in dict
order; the distance factor is recomputed in every iteration in the source
and is therefore inlined per term here. -/
def calculate_business_context_multiplier (ctx : BusinessContext) : ℚ :=
  min (1
    + (ctx.manufacturing_count : ℚ) * 0.15 * (1 / (1 + ctx.radius_km / 5)) * 0.02
    + (ctx.healthcare_count : ℚ) * 0.10 * (1 / (1 + ctx.radius_km / 5)) * 0.02
    + (ctx.education_count : ℚ) * 0.08 * (1 / (1 + ctx.radius_km / 5)) * 0.02
    + (ctx.commercial_office_count : ℚ) * 0.05 * (1 / (1 + ctx.radius_km / 5)) * 0.02
    + (ctx.retail_count : ℚ) * 0.07 * (1 / (1 + ctx.radius_km / 5)) * 0.02
    + (ctx.technology_hub_count : ℚ) * 0.20 * (1 / (1 + ctx.radius_km / 5)) * 0.02
    + (ctx.warehousing_count : ℚ) * 0.04 * (1 / (1 + ctx.radius_km / 5)) * 0.02
    + (ctx.financial_count : ℚ) * 0.06 * (1 / (1 + ctx.radius_km / 5)) * 0.02)
    1.6

/-- `calculate_seasonal_factor` (identical in both modules);
`np.clip(x, 0.8, 1.3)` is `min (max x 0.8) 1.3`. -/
def calculate_seasonal_factor (env : EnvironmentalData) : ℚ :=
  min (max (0.85 + max (env.temp_avg - 60) 0 * 0.008
    + (env.humidity_avg - 50) * 0.001
    + env.seasonal_variation * 0.002) 0.8) 1.3

/-- The three grid-impact categories returned by `assess_grid_impact`. -/
inductive GridImpact where
  | HIGH_STRAIN
  | MODERATE_IMPACT
  | LOW_IMPACT
deriving DecidableEq, Repr

/-- `assess_grid_impact` (identical in both modules). -/
def assess_grid_impact (pred_demand : ℚ) (grid : GridInfrastructure) : GridImpact :=
  if pred_demand / grid.grid_capacity > 0.8 then .HIGH_STRAIN
  else if pred_demand / grid.grid_capacity > 0.6 then .MODERATE_IMPACT
  else .LOW_IMPACT

/-- The only runtime error the prediction path can hit: Python raises
`ZeroDivisionError` when `grid_capacity == 0` is used as a float divisor.
No `ValidationError` class (and no `raise` statement at all) exists anywhere
in the repository. -/
inductive PyError where
  | zeroDivisionError
deriving DecidableEq, Repr

/-- One row of `DatacenterImpactPredictor.STATE_DATA` in `predictor.py`. -/
structure StateEntry where
  percentage : ℚ
  pue : ℚ
  region : String
  grid_capacity : ℚ
deriving DecidableEq, Repr

/-- `DatacenterImpactPredictor.STATE_DATA` (`predictor.py`). -/
def STATE_DATA : List (String × StateEntry) := [
  ("Virginia", ⟨25.6, 1.35, "Southeast", 850⟩),
  ("Texas", ⟨4.6, 1.42, "South", 450⟩),
  ("California", ⟨3.7, 1.28, "West", 500⟩),
  ("Illinois", ⟨5.5, 1.38, "Midwest", 400⟩),
  ("Oregon", ⟨11.4, 1.25, "West", 350⟩),
  ("Arizona", ⟨7.4, 1.45, "Southwest", 380⟩),
  ("Iowa", ⟨11.4, 1.32, "Midwest", 320⟩),
  ("Georgia", ⟨4.3, 1.36, "Southeast", 420⟩),
  ("Washington", ⟨5.7, 1.22, "West", 380⟩),
  ("Pennsylvania", ⟨3.2, 1.41, "Northeast", 430⟩),
  ("New Jersey", ⟨5.4, 1.43, "Northeast", 410⟩),
  ("Nebraska", ⟨11.7, 1.34, "Midwest", 290⟩),
  ("North Dakota", ⟨4.4, 1.39, "Midwest", 260⟩),
  ("Nevada", ⟨8.7, 1.41, "West", 340⟩)]

/-- Dictionary lookup `STATE_DATA.get(state)` without default. -/
def state_lookup (s : String) : Option StateEntry :=
  (STATE_DATA.find? (fun p => p.1 == s)).map Prod.snd

/-- `STATE_DATA.get(specs.state, {'percentage': 0, 'pue': 1.4,
'region': 'Unknown'})` — returns `(percentage, pue, region)`. -/
def state_info_default (s : String) : ℚ × ℚ × String :=
  match state_lookup s with
  | some e => (e.percentage, e.pue, e.region)
  | none => (0, 1.4, "Unknown")

/-- Result dict of `DatacenterPowerDemandPredictor.predict_single_facility`
(`datacenter_power_predictor.py`). -/
structure SingleFacilityResult where
  base_consumption_mw : ℚ
  business_multiplier : ℚ
  seasonal_factor : ℚ
  predicted_demand_mw : ℚ
  uncertainty_range_mw : ℚ × ℚ
  grid_impact : GridImpact
  grid_utilization : ℚ
  confidence_score : ℚ
deriving DecidableEq, Repr

/-- `DatacenterPowerDemandPredictor.predict_single_facility`.  Note its
hard-coded `uncertainty = 0.12`. -/
def predict_single_facility (specs : DatacenterSpecs) (ctx : BusinessContext)
    (grid : GridInfrastructure) (env : EnvironmentalData) :
    Except PyError SingleFacilityResult :=
  let base := calculate_base_consumption specs
  let bus_multiplier := calculate_business_context_multiplier ctx
  let s_factor := calculate_seasonal_factor env
  let predicted := base * bus_multiplier * s_factor
  if grid.grid_capacity = 0 then .error .zeroDivisionError else
  .ok {
    base_consumption_mw := pyRound 2 base
    business_multiplier := pyRound 3 bus_multiplier
    seasonal_factor := pyRound 3 s_factor
    predicted_demand_mw := pyRound 2 predicted
    uncertainty_range_mw :=
      (pyRound 2 (predicted * (1 - 0.12)), pyRound 2 (predicted * (1 + 0.12)))
    grid_impact := assess_grid_impact predicted grid
    grid_utilization := pyRound 3 (predicted / grid.grid_capacity)
    confidence_score := 0.88 }

/-- `self.model_uncertainty = 0.126` (`predictor.py`). -/
def model_uncertainty : ℚ := 0.126

/-- Result dict of `DatacenterImpactPredictor.predict_impact`
(`predictor.py`). -/
structure ImpactResult where
  base_consumption_mw : ℚ
  business_multiplier : ℚ
  seasonal_factor : ℚ
  predicted_demand_mw : ℚ
  uncertainty_range_mw : ℚ × ℚ
  grid_impact : GridImpact
  grid_utilization : ℚ
  grid_utilization_percent : ℚ
  confidence_score : ℚ
  annual_energy_mwh : ℚ
  co2_emissions_tons : ℚ
  estimated_jobs : ℤ
  annual_energy_cost_usd : ℚ
  state_datacenter_percentage : ℚ
  state_region : String
  state_typical_pue : ℚ
deriving DecidableEq, Repr

/-- `DatacenterImpactPredictor.predict_impact` (`predictor.py`). -/
def predict_impact (specs : DatacenterSpecs) (ctx : BusinessContext)
    (grid : GridInfrastructure) (env : EnvironmentalData) :
    Except PyError ImpactResult :=
  let base_consumption := calculate_base_consumption specs
  let business_multiplier := calculate_business_context_multiplier ctx
  let seasonal_factor := calculate_seasonal_factor env
  let predicted_demand := base_consumption * business_multiplier * seasonal_factor
  if grid.grid_capacity = 0 then .error .zeroDivisionError else
  .ok {
    base_consumption_mw := pyRound 2 base_consumption
    business_multiplier := pyRound 3 business_multiplier
    seasonal_factor := pyRound 3 seasonal_factor
    predicted_demand_mw := pyRound 2 predicted_demand
    uncertainty_range_mw :=
      (pyRound 2 (predicted_demand * (1 - model_uncertainty)),
       pyRound 2 (predicted_demand * (1 + model_uncertainty)))
    grid_impact := assess_grid_impact predicted_demand grid
    grid_utilization := pyRound 3 (predicted_demand / grid.grid_capacity)
    grid_utilization_percent := pyRound 1 (predicted_demand / grid.grid_capacity * 100)
    confidence_score := pyRound 2 (1 - model_uncertainty)
    annual_energy_mwh := pyRound 0 (predicted_demand * 8760)
    co2_emissions_tons := pyRound 0 (predicted_demand * 8760 * 0.4)
    estimated_jobs := pyIntTrunc ((specs.server_count : ℚ) / 500)
    annual_energy_cost_usd := pyRound 0 (predicted_demand * 8760 * 50)
    state_datacenter_percentage := (state_info_default specs.state).1
    state_region := (state_info_default specs.state).2.2
    state_typical_pue := (state_info_default specs.state).2.1 }

/-! ## Synthetic data generator (`data_utils.py`)

NumPy's global pseudo-random stream is modelled as a concrete deterministic
stream: a `(seed, position)` pair advanced by one step per scalar draw.
`np.random.seed(seed)` overwrites the whole state, discarding whatever state
was there before — exactly as in NumPy.  The numeric transforms inside
NumPy's distribution samplers are external library code, not part of this
repository; they are modelled as fixed deterministic functions of the
stream value, which is faithful for every property settled below (none
depends on the shape of a distribution). -/

/-- The modelled global pseudo-random stream state. -/
abbrev RNG : Type := ℕ × ℕ

/-- `np.random.seed(seed)`: reset the global stream. -/
def np_seed (seed : ℕ) : RNG := (seed, 0)

/-- One raw draw from the modelled stream: a rational in `[0, 1)`. -/
def rand_step (g : RNG) : ℚ × RNG :=
  let v := (g.1 * 1103515245 + g.2 * 12345 + 12345) % 2147483648
  ((v : ℚ) / 2147483648, (g.1, g.2 + 1))

/-- Modelled `np.random.normal(mu, sigma)` (one stream step). -/
def np_normal (mu sigma : ℚ) (g : RNG) : ℚ × RNG :=
  let (u, g') := rand_step g
  (mu + sigma * (2 * u - 1), g')

/-- Modelled `np.random.uniform(a, b)` (one stream step). -/
def np_uniform (a b : ℚ) (g : RNG) : ℚ × RNG :=
  let (u, g') := rand_step g
  (a + (b - a) * u, g')

/-- Modelled `np.random.lognormal(mu, sigma)` (one stream step). -/
def np_lognormal (mu sigma : ℚ) (g : RNG) : ℚ × RNG :=
  let (u, g') := rand_step g
  ((1 + u) * (1 + mu) ^ 2 * (1 + sigma), g')

/-- Modelled `np.random.beta(a, b)` (one stream step). -/
def np_beta (a b : ℚ) (g : RNG) : ℚ × RNG :=
  let (u, g') := rand_step g
  (u * a / (a + b), g')

/-- Modelled `np.random.poisson(lam)` (one stream step). -/
def np_poisson (lam : ℚ) (g : RNG) : ℤ × RNG :=
  let (u, g') := rand_step g
  (⌊u * 2 * lam⌋, g')

/-- `np.random.choice(items, p=weights)`: walk the cumulative weights with
one uniform draw. -/
def weighted_choice : List (String × ℚ) → ℚ → String
  | [], _ => ""
  | (s, w) :: rest, u => if u < w then s else weighted_choice rest (u - w)

/-- The state names paired with their normalized sampling weights
(`weights = percentage / sum(percentages)`).  The generator's own
`state_data` table repeats the `percentage`/`pue`/`region` columns of
`STATE_DATA`, so that table is shared. -/
def state_weights : List (String × ℚ) :=
  STATE_DATA.map (fun p => (p.1, p.2.percentage / (STATE_DATA.map (fun q => q.2.percentage)).sum))

/-- All random draws for one sample of `generate_dataset`, in draw order. -/
structure GenDraws where
  state : String
  server_count : ℤ
  rack_density : ℚ
  gpu_pct : ℚ
  pue : ℚ
  building_sqft : ℤ
  cooling_type : String
  temp_avg : ℚ
  humidity_avg : ℚ
  manufacturing_count : ℤ
  healthcare_count : ℤ
  education_count : ℤ
  commercial_office_count : ℤ
  retail_count : ℤ
  technology_hub_count : ℤ
  warehousing_count : ℤ
  financial_count : ℤ
  grid_capacity : ℚ
  transmission_rating : ℚ
  coef_manufacturing : ℚ
  coef_healthcare : ℚ
  coef_education : ℚ
  coef_commercial_office : ℚ
  coef_retail : ℚ
  coef_technology_hub : ℚ
  coef_warehousing : ℚ
  coef_financial : ℚ
  noise : ℚ

/-- One row of the generated dataset (`item` dict in `generate_dataset`). -/
structure TrainingRecord where
  state : String
  region : String
  server_count : ℤ
  rack_density : ℚ
  gpu_percentage : ℚ
  pue_rating : ℚ
  building_sqft : ℤ
  cooling_type : String
  temp_avg : ℚ
  humidity_avg : ℚ
  grid_capacity : ℚ
  transmission_rating : ℚ
  base_consumption_mw : ℚ
  business_multiplier : ℚ
  seasonal_factor : ℚ
  predicted_demand_mw : ℚ
  actual_demand_mw : ℚ
  manufacturing_count : ℤ
  healthcare_count : ℤ
  education_count : ℤ
  commercial_office_count : ℤ
  retail_count : ℤ
  technology_hub_count : ℤ
  warehousing_count : ℤ
  financial_count : ℤ

/-- `data_utils.py` lines 57-63: the generator's own base-consumption
recomputation.  Note the exact (case-sensitive) comparison
`cooling_type == 'Liquid'`, and that the unfloored `rack_density`/`pue`
draws are used here even though the emitted record floors them. -/
def gen_base_consumption (d : GenDraws) : ℚ :=
  let base_server_power := ((d.server_count : ℚ) / 21) * d.rack_density
  let gpu_mult := 1 + d.gpu_pct * 2.5
  let server_power := base_server_power * gpu_mult
  let cooling_power := server_power * (if d.cooling_type = "Liquid" then 0.25 else 0.4)
  let infrastructure_power := (server_power + cooling_power) * 0.15
  (server_power + cooling_power + infrastructure_power) * d.pue / 1000

/-- `data_utils.py` lines 65-67: the generator's business multiplier.  Each
category count is scaled by a fresh `np.random.uniform(0, 0.01)` draw — not
by the fixed coefficients, distance factor and 0.02 scaling of
`calculate_business_context_multiplier`. -/
def gen_business_multiplier (d : GenDraws) : ℚ :=
  min (1
    + (d.coef_manufacturing * (d.manufacturing_count : ℚ)
    + d.coef_healthcare * (d.healthcare_count : ℚ)
    + d.coef_education * (d.education_count : ℚ)
    + d.coef_commercial_office * (d.commercial_office_count : ℚ)
    + d.coef_retail * (d.retail_count : ℚ)
    + d.coef_technology_hub * (d.technology_hub_count : ℚ)
    + d.coef_warehousing * (d.warehousing_count : ℚ)
    + d.coef_financial * (d.financial_count : ℚ)))
    1.6

/-- `data_utils.py` line 68: the generator's seasonal factor — only the
temperature term, with no humidity or seasonal-variation contribution and
no clip. -/
def gen_seasonal_factor (temp_avg : ℚ) : ℚ :=
  0.85 + max (temp_avg - 60) 0 * 0.008

/-- `data_utils.py` line 69. -/
def gen_predicted_demand (d : GenDraws) : ℚ :=
  gen_base_consumption d * gen_business_multiplier d * gen_seasonal_factor d.temp_avg

/-- `data_utils.py` line 70: `actual_demand = predicted_demand *
np.random.normal(1.0, 0.08)` with the noise draw in `d.noise`. -/
def gen_actual_demand (d : GenDraws) : ℚ :=
  gen_predicted_demand d * d.noise

/-- The sequence of draws for one sample, in the order the source performs
them (state, server_count, rack_density, gpu, pue, sqft factor, cooling,
temp, humidity, the eight Poisson counts, grid capacity, transmission, the
eight multiplier uniforms, noise). -/
def draw_sample (g : RNG) : GenDraws × RNG :=
  let (u_state, g) := rand_step g
  let state := weighted_choice state_weights u_state
  let sdat_pue := match state_lookup state with
    | some e => e.pue
    | none => 0
  let (sc_raw, g) := np_lognormal 7.5 1.2 g
  let server_count := pyIntTrunc sc_raw
  let (rack_density, g) := np_normal 12.5 3.2 g
  let (gpu_pct, g) := np_beta 2 8 g
  let (pue, g) := np_normal sdat_pue 0.15 g
  let (sqft_mult, g) := np_uniform 80 120 g
  let building_sqft := pyIntTrunc ((server_count : ℚ) * sqft_mult)
  let (u_cool, g) := rand_step g
  let cooling_type := weighted_choice [("Air", 0.75), ("Liquid", 0.25)] u_cool
  let (temp_avg, g) := np_normal 75 15 g
  let (humidity_avg, g) := np_uniform 40 70 g
  let (n_man, g) := np_poisson 4 g
  let (n_health, g) := np_poisson 4 g
  let (n_edu, g) := np_poisson 4 g
  let (n_office, g) := np_poisson 4 g
  let (n_retail, g) := np_poisson 4 g
  let (n_tech, g) := np_poisson 4 g
  let (n_ware, g) := np_poisson 4 g
  let (n_fin, g) := np_poisson 4 g
  let (grid_capacity, g) := np_normal (if state = "Virginia" then 850 else 400) 150 g
  let (transmission_rating, g) := np_normal 345 50 g
  let (k_man, g) := np_uniform 0 0.01 g
  let (k_health, g) := np_uniform 0 0.01 g
  let (k_edu, g) := np_uniform 0 0.01 g
  let (k_office, g) := np_uniform 0 0.01 g
  let (k_retail, g) := np_uniform 0 0.01 g
  let (k_tech, g) := np_uniform 0 0.01 g
  let (k_ware, g) := np_uniform 0 0.01 g
  let (k_fin, g) := np_uniform 0 0.01 g
  let (noise, g) := np_normal 1 0.08 g
  (⟨state, server_count, rack_density, gpu_pct, pue, building_sqft, cooling_type,
    temp_avg, humidity_avg, n_man, n_health, n_edu, n_office, n_retail, n_tech,
    n_ware, n_fin, grid_capacity, transmission_rating, k_man, k_health, k_edu,
    k_office, k_retail, k_tech, k_ware, k_fin, noise⟩, g)

/-- The `item` dict built from one sample's draws (`data_utils.py` lines
71-81).  `rack_density` is floored at 5 and `pue_rating` at 1.0 in the
emitted record only; every drawn state is a key of the table, so the
`region` fallback branch is unreachable. -/
def make_record (d : GenDraws) : TrainingRecord :=
  { state := d.state
    region := match state_lookup d.state with
      | some e => e.region
      | none => ""
    server_count := d.server_count
    rack_density := max d.rack_density 5
    gpu_percentage := d.gpu_pct
    pue_rating := max d.pue 1
    building_sqft := d.building_sqft
    cooling_type := d.cooling_type
    temp_avg := d.temp_avg
    humidity_avg := d.humidity_avg
    grid_capacity := d.grid_capacity
    transmission_rating := d.transmission_rating
    base_consumption_mw := gen_base_consumption d
    business_multiplier := gen_business_multiplier d
    seasonal_factor := gen_seasonal_factor d.temp_avg
    predicted_demand_mw := gen_predicted_demand d
    actual_demand_mw := gen_actual_demand d
    manufacturing_count := d.manufacturing_count
    healthcare_count := d.healthcare_count
    education_count := d.education_count
    commercial_office_count := d.commercial_office_count
    retail_count := d.retail_count
    technology_hub_count := d.technology_hub_count
    warehousing_count := d.warehousing_count
    financial_count := d.financial_count }

/-- `USDatacenterDataGenerator.generate_dataset(n_samples)`: the per-sample
loop, threading the global stream. -/
def generate_dataset (g : RNG) : ℕ → List TrainingRecord × RNG
  | 0 => ([], g)
  | n + 1 =>
    let (d, g') := draw_sample g
    let (rest, g'') := generate_dataset g' n
    (make_record d :: rest, g'')

/-- `USDatacenterDataGenerator.__init__(seed)`: its only random-stream
effect is `np.random.seed(seed)`, which replaces whatever global stream
state existed before the constructor ran. -/
def generator_init (seed : ℕ) (_prior : RNG) : RNG := np_seed seed

/-! ## Training harness (`datacenter_power_predictor.py`, `train_models`)

The three sklearn regressors are fitted in a plain `for` loop with no
`try`/`except` anywhere in the function (or the repository).  The sklearn
calls themselves are external library code, so each model's fit outcome is
an input here; the loop's control flow — Python exception propagation
included — is the embedded content: the first raising fit aborts the whole
call and the local `results` dict of earlier models is lost. -/

/-- The `for name, model in self.models.items()` loop of `train_models`,
over the per-model fit outcomes in dict order
(`random_forest`, `gradient_boosting`, `neural_network`). -/
def train_models_loop {μ : Type} :
    List (String × Except String μ) → Except String (List (String × μ))
  | [] => .ok []
  | (_, .error e) :: _ => .error e
  | (name, .ok m) :: rest =>
    match train_models_loop rest with
    | .error e => .error e
    | .ok r => .ok ((name, m) :: r)

/-- `Except.isOk` spelled out for the result types used here. -/
def exceptOk {ε α : Type} : Except ε α → Bool
  | .ok _ => true
  | .error _ => false

end Datacenter

/-! ## Theorems settling the claims -/

namespace Datacenter

/-- Claim C1, counterexample: a fully out-of-domain input — negative
`server_count`, `gpu_percentage` 2 ∉ [0,1], `pue_rating` 0.5 < 1, the
unsupported cooling type "Quantum" and the unknown state "Atlantis" — is
computed through to a result by both prediction entry points instead of
raising a `ValidationError`. -/
theorem out_of_domain_not_rejected :
    exceptOk (predict_impact ⟨-100, 10, 2, 0.5, 1000, "Quantum", "Atlantis"⟩
      ⟨1, 1, 1, 1, 1, 1, 1, 1, 5⟩ ⟨50, 230, 2, 0.95, 0.25⟩ ⟨70, 50, 15, 0⟩) = true ∧
    exceptOk (predict_single_facility ⟨-100, 10, 2, 0.5, 1000, "Quantum", "Atlantis"⟩
      ⟨1, 1, 1, 1, 1, 1, 1, 1, 5⟩ ⟨50, 230, 2, 0.95, 0.25⟩ ⟨70, 50, 15, 0⟩) = true := by
  constructor <;>
    norm_num [predict_impact, predict_single_facility, exceptOk]

/-- Claim C1, amended: `predict_impact` and `predict_single_facility`
perform no input validation whatsoever.  For every input — in or out of the
documented domain — with nonzero `grid_capacity` they return a computed
result, and when `grid_capacity = 0` they raise `ZeroDivisionError` (from
the utilization division), not a `ValidationError`. -/
theorem predict_no_validation (specs : DatacenterSpecs) (ctx : BusinessContext)
    (grid : GridInfrastructure) (env : EnvironmentalData) :
    (grid.grid_capacity ≠ 0 →
      exceptOk (predict_impact specs ctx grid env) = true ∧
      exceptOk (predict_single_facility specs ctx grid env) = true) ∧
    (grid.grid_capacity = 0 →
      predict_impact specs ctx grid env = .error .zeroDivisionError ∧
      predict_single_facility specs ctx grid env = .error .zeroDivisionError) := by
  constructor
  · intro h
    constructor <;> simp [predict_impact, predict_single_facility, exceptOk, h]
  · intro h
    constructor <;> simp [predict_impact, predict_single_facility, h]

/-- Claim C1, witness for the amended theorem at a concrete in-domain input
and at a concrete zero-capacity input. -/
theorem predict_no_validation_witness :
    exceptOk (predict_impact ⟨5000, 15, 0.4, 1.3, 200000, "Liquid", "Virginia"⟩
        ⟨2, 1, 0, 5, 3, 1, 2, 1, 5⟩ ⟨850, 345, 2, 0.95, 0.25⟩ ⟨65, 60, 15, 0⟩) = true ∧
    predict_impact ⟨5000, 15, 0.4, 1.3, 200000, "Liquid", "Virginia"⟩
        ⟨2, 1, 0, 5, 3, 1, 2, 1, 5⟩ ⟨0, 345, 2, 0.95, 0.25⟩ ⟨65, 60, 15, 0⟩ =
      .error .zeroDivisionError :=
  ⟨((predict_no_validation ⟨5000, 15, 0.4, 1.3, 200000, "Liquid", "Virginia"⟩
      ⟨2, 1, 0, 5, 3, 1, 2, 1, 5⟩ ⟨850, 345, 2, 0.95, 0.25⟩ ⟨65, 60, 15, 0⟩).1
      (by norm_num)).1,
   ((predict_no_validation ⟨5000, 15, 0.4, 1.3, 200000, "Liquid", "Virginia"⟩
      ⟨2, 1, 0, 5, 3, 1, 2, 1, 5⟩ ⟨0, 345, 2, 0.95, 0.25⟩ ⟨65, 60, 15, 0⟩).2
      (by norm_num)).1⟩

/-- Claim C2, counterexample: at a facility whose exact predicted demand is
1.3685 MW, `predict_single_facility` returns the range (1.20, 1.53) — the
±12% bracket — which differs from the claimed
[1.3685·(1−0.126), 1.3685·(1+0.126)]. -/
theorem single_facility_uncertainty_not_126 :
    calculate_base_consumption ⟨21, 1000, 0, 1, 2000, "Air", "Virginia"⟩ *
        calculate_business_context_multiplier ⟨0, 0, 0, 0, 0, 0, 0, 0, 5⟩ *
        calculate_seasonal_factor ⟨60, 50, 0, 0⟩ = 1.3685 ∧
    (predict_single_facility ⟨21, 1000, 0, 1, 2000, "Air", "Virginia"⟩
        ⟨0, 0, 0, 0, 0, 0, 0, 0, 5⟩ ⟨850, 345, 2, 0.95, 0.25⟩ ⟨60, 50, 0, 0⟩).map
      SingleFacilityResult.uncertainty_range_mw = .ok (1.2, 1.53) ∧
    ((1.2 : ℚ), (1.53 : ℚ)) ≠
      (1.3685 * (1 - 0.126), 1.3685 * (1 + 0.126)) := by
  refine ⟨?_, ?_, by norm_num⟩
  · norm_num [calculate_base_consumption, calculate_business_context_multiplier,
      calculate_seasonal_factor, cooling_efficiency,
      show pyLower "Air" ≠ "liquid" from by decide]
  · norm_num [predict_single_facility, calculate_base_consumption,
      calculate_business_context_multiplier, calculate_seasonal_factor,
      cooling_efficiency, pyRound, pyRoundHalfEven, Except.map,
      show pyLower "Air" ≠ "liquid" from by decide]

/-- Claim C2, amended: the two prediction entry points use different fixed
relative uncertainties.  `predict_impact` brackets the (unrounded) point
estimate at ±12.6% and `predict_single_facility` at ±12%, each end rounded
to two decimals. -/
theorem uncertainty_ranges (specs : DatacenterSpecs) (ctx : BusinessContext)
    (grid : GridInfrastructure) (env : EnvironmentalData)
    (hg : grid.grid_capacity ≠ 0) :
    (predict_impact specs ctx grid env).map ImpactResult.uncertainty_range_mw =
      .ok (pyRound 2 (calculate_base_consumption specs * calculate_business_context_multiplier ctx *
        calculate_seasonal_factor env * (1 - 0.126)),
           pyRound 2 (calculate_base_consumption specs * calculate_business_context_multiplier ctx *
        calculate_seasonal_factor env * (1 + 0.126))) ∧
    (predict_single_facility specs ctx grid env).map
        SingleFacilityResult.uncertainty_range_mw =
      .ok (pyRound 2 (calculate_base_consumption specs * calculate_business_context_multiplier ctx *
        calculate_seasonal_factor env * (1 - 0.12)),
           pyRound 2 (calculate_base_consumption specs * calculate_business_context_multiplier ctx *
        calculate_seasonal_factor env * (1 + 0.12))) := by
  constructor <;>
    simp [predict_impact, predict_single_facility, model_uncertainty, hg,
      Except.map, mul_assoc]

/-- Claim C2, witness for the amended theorem at a concrete facility. -/
theorem uncertainty_ranges_witness :
    (predict_single_facility ⟨5000, 15, 0.4, 1.3, 200000, "Liquid", "Virginia"⟩
        ⟨2, 1, 0, 5, 3, 1, 2, 1, 5⟩ ⟨850, 345, 2, 0.95, 0.25⟩ ⟨65, 60, 15, 0⟩).map
      SingleFacilityResult.uncertainty_range_mw =
      .ok (pyRound 2 (calculate_base_consumption ⟨5000, 15, 0.4, 1.3, 200000, "Liquid", "Virginia"⟩ *
              calculate_business_context_multiplier ⟨2, 1, 0, 5, 3, 1, 2, 1, 5⟩ *
              calculate_seasonal_factor ⟨65, 60, 15, 0⟩ * (1 - 0.12)),
           pyRound 2 (calculate_base_consumption ⟨5000, 15, 0.4, 1.3, 200000, "Liquid", "Virginia"⟩ *
              calculate_business_context_multiplier ⟨2, 1, 0, 5, 3, 1, 2, 1, 5⟩ *
              calculate_seasonal_factor ⟨65, 60, 15, 0⟩ * (1 + 0.12))) :=
  (uncertainty_ranges ⟨5000, 15, 0.4, 1.3, 200000, "Liquid", "Virginia"⟩
    ⟨2, 1, 0, 5, 3, 1, 2, 1, 5⟩ ⟨850, 345, 2, 0.95, 0.25⟩ ⟨65, 60, 15, 0⟩
    (by norm_num)).2

/-- Claim C3, counterexample: for the concrete sample draws (21 servers,
rack density 1, no GPUs, PUE 1, Air cooling, temperature 130 °F, humidity
50, all business counts 0, noise 1) the generator's label is
0.00161·1.41 = 0.0022701, while the Estimation Formula applied to the same
sampled inputs gives 0.00161·1.3: the generator's seasonal factor
0.85 + (130−60)·0.008 = 1.41 escapes the formula's [0.8, 1.3] clip. -/
theorem generator_label_not_formula :
    gen_predicted_demand ⟨"Virginia", 21, 1, 0, 1, 2100, "Air", 130, 50,
        0, 0, 0, 0, 0, 0, 0, 0, 400, 345, 0, 0, 0, 0, 0, 0, 0, 0, 1⟩ ≠
      calculate_base_consumption ⟨21, 1, 0, 1, 2100, "Air", "Virginia"⟩ *
        calculate_business_context_multiplier ⟨0, 0, 0, 0, 0, 0, 0, 0, 5⟩ *
        calculate_seasonal_factor ⟨130, 50, 0, 0⟩ := by
  norm_num [gen_predicted_demand, gen_base_consumption, gen_business_multiplier,
    gen_seasonal_factor, calculate_base_consumption,
    calculate_business_context_multiplier, calculate_seasonal_factor,
    cooling_efficiency, show pyLower "Air" ≠ "liquid" from by decide,
    show ("Air" : String) ≠ "Liquid" from by decide]

/-- Claim C3, amended: the generator's label reuses the Estimation
Formula's base-consumption computation (same constants) on the sampled
inputs, but multiplies it by its own business multiplier — fresh
Uniform(0, 0.01) per-category coefficients, no distance factor, no 0.02
scaling, still capped at 1.6 — and by a seasonal factor containing only the
temperature term (no humidity or seasonal-variation contribution and no
[0.8, 1.3] clip); `actual_demand` is `predicted_demand` times the
Normal(1.0, 0.08) noise draw. -/
theorem generator_label_structure (d : GenDraws)
    (hc : d.cooling_type = "Air" ∨ d.cooling_type = "Liquid") :
    gen_predicted_demand d =
      calculate_base_consumption ⟨d.server_count, d.rack_density, d.gpu_pct,
        d.pue, d.building_sqft, d.cooling_type, d.state⟩ *
        gen_business_multiplier d * gen_seasonal_factor d.temp_avg ∧
    gen_actual_demand d = gen_predicted_demand d * d.noise := by
  refine ⟨?_, rfl⟩
  have hbase : gen_base_consumption d =
      calculate_base_consumption ⟨d.server_count, d.rack_density, d.gpu_pct,
        d.pue, d.building_sqft, d.cooling_type, d.state⟩ := by
    rcases hc with h | h
    · simp only [gen_base_consumption, calculate_base_consumption,
        cooling_efficiency, h,
        if_neg (show ¬("Air" : String) = "Liquid" from by decide),
        if_neg (show ¬pyLower "Air" = "liquid" from by decide)]
      ring
    · simp only [gen_base_consumption, calculate_base_consumption,
        cooling_efficiency, h,
        if_pos (rfl : ("Liquid" : String) = "Liquid"),
        if_pos (show pyLower "Liquid" = "liquid" from by decide), if_true]
      ring
  rw [gen_predicted_demand, hbase]

/-- Claim C3, witness for the amended theorem at concrete sample draws. -/
theorem generator_label_structure_witness :
    gen_predicted_demand ⟨"Virginia", 21, 1, 0, 1, 2100, "Air", 130, 50,
        0, 0, 0, 0, 0, 0, 0, 0, 400, 345, 0, 0, 0, 0, 0, 0, 0, 0, 1⟩ =
      calculate_base_consumption ⟨21, 1, 0, 1, 2100, "Air", "Virginia"⟩ *
        gen_business_multiplier ⟨"Virginia", 21, 1, 0, 1, 2100, "Air", 130, 50,
          0, 0, 0, 0, 0, 0, 0, 0, 400, 345, 0, 0, 0, 0, 0, 0, 0, 0, 1⟩ *
        gen_seasonal_factor 130 ∧
    gen_actual_demand ⟨"Virginia", 21, 1, 0, 1, 2100, "Air", 130, 50,
        0, 0, 0, 0, 0, 0, 0, 0, 400, 345, 0, 0, 0, 0, 0, 0, 0, 0, 1⟩ =
      gen_predicted_demand ⟨"Virginia", 21, 1, 0, 1, 2100, "Air", 130, 50,
        0, 0, 0, 0, 0, 0, 0, 0, 400, 345, 0, 0, 0, 0, 0, 0, 0, 0, 1⟩ * 1 :=
  generator_label_structure ⟨"Virginia", 21, 1, 0, 1, 2100, "Air", 130, 50,
    0, 0, 0, 0, 0, 0, 0, 0, 400, 345, 0, 0, 0, 0, 0, 0, 0, 0, 1⟩ (Or.inl rfl)

/-- Claim C4, counterexample: with 21 servers (one rack), rack density
1000 kW, no GPUs, PUE 1 and Air cooling, `calculate_base_consumption`
returns 1.61 MW, not the claimed (total_racks × rack_density × 1.4)/1000 =
1.4 MW. -/
theorem base_consumption_air_not_1_4 :
    calculate_base_consumption ⟨21, 1000, 0, 1, 2000, "Air", "Virginia"⟩ ≠
      ((21 : ℚ) / (42 / 2)) * 1000 * 1.4 / 1000 := by
  norm_num [calculate_base_consumption, cooling_efficiency,
    show pyLower "Air" ≠ "liquid" from by decide]

/-- Claim C4, amended: for gpu_percentage = 0, pue_rating = 1.0 and Air
cooling, `calculate_base_consumption` equals
(total_racks × rack_density × 1.61)/1000 exactly, with
1.61 = 1 + 0.4 (cooling) + 0.15·1.4 (infrastructure) and
total_racks = server_count/21. -/
theorem base_consumption_air_closed_form (specs : DatacenterSpecs)
    (hgpu : specs.gpu_percentage = 0) (hpue : specs.pue_rating = 1)
    (hcool : specs.cooling_type = "Air") :
    calculate_base_consumption specs =
      ((specs.server_count : ℚ) / (42 / 2)) * specs.rack_density * 1.61 / 1000 := by
  simp only [calculate_base_consumption, cooling_efficiency, hgpu, hpue, hcool]
  rw [if_neg (by decide)]
  ring

/-- Claim C4, witness for the amended closed form at a one-rack facility. -/
theorem base_consumption_air_closed_form_witness :
    calculate_base_consumption ⟨21, 1000, 0, 1, 2000, "Air", "Virginia"⟩ =
      ((21 : ℚ) / (42 / 2)) * 1000 * 1.61 / 1000 :=
  base_consumption_air_closed_form ⟨21, 1000, 0, 1, 2000, "Air", "Virginia"⟩ rfl rfl rfl

/-- Claim C5, counterexample: when the second model's fit raises, the whole
training loop aborts with that error; the first model's metrics are not
returned and no per-model failure notation exists in any report. -/
theorem train_models_error_aborts_run :
    train_models_loop [("random_forest", Except.ok (0 : ℕ)),
      ("gradient_boosting", Except.error "ModelFitError"),
      ("neural_network", Except.ok 1)] = .error "ModelFitError" ∧
    exceptOk (train_models_loop [("random_forest", Except.ok (0 : ℕ)),
      ("gradient_boosting", Except.error "ModelFitError"),
      ("neural_network", Except.ok 1)]) = false := ⟨rfl, rfl⟩

/-- Claim C5, amended: `train_models` has no per-model error isolation — a
fit error in any model makes the whole call return an error, losing every
other model's results. -/
theorem train_models_error_propagates {μ : Type} (fits : List (String × Except String μ))
    (name e : String) (h : (name, Except.error e) ∈ fits) :
    ∃ e₂, train_models_loop fits = .error e₂ := by
  induction fits with
  | nil => cases h
  | cons p rest ih =>
    obtain ⟨n₁, f₁⟩ := p
    cases f₁ with
    | error e₁ => exact ⟨e₁, rfl⟩
    | ok m =>
      rcases List.mem_cons.1 h with heq | hmem
      · cases heq
      · obtain ⟨e₂, h₂⟩ := ih hmem
        exact ⟨e₂, by simp [train_models_loop, h₂]⟩

/-- Claim C5, witness for the amended theorem on a concrete fit list. -/
theorem train_models_error_propagates_witness :
    ∃ e₂, train_models_loop [("random_forest", Except.ok (0 : ℕ)),
      ("gradient_boosting", Except.error "ModelFitError"),
      ("neural_network", Except.ok 1)] = .error e₂ :=
  train_models_error_propagates _ "gradient_boosting" "ModelFitError" (by simp)

/-- Claim C6: for every BusinessContext in the documented domain
(non-negative counts, non-negative radius), the business multiplier lies in
[1, 1.6] and is monotonically non-decreasing in each individual business
count, the other fields held fixed. -/
theorem business_multiplier_bounded_monotone (ctx : BusinessContext)
    (hr : 0 ≤ ctx.radius_km)
    (hm : 0 ≤ ctx.manufacturing_count) (hh : 0 ≤ ctx.healthcare_count)
    (he : 0 ≤ ctx.education_count) (ho : 0 ≤ ctx.commercial_office_count)
    (ht : 0 ≤ ctx.retail_count) (hu : 0 ≤ ctx.technology_hub_count)
    (hw : 0 ≤ ctx.warehousing_count) (hf : 0 ≤ ctx.financial_count) :
    1 ≤ calculate_business_context_multiplier ctx ∧
    calculate_business_context_multiplier ctx ≤ 1.6 ∧
    (∀ n, ctx.manufacturing_count ≤ n →
      calculate_business_context_multiplier ctx ≤
        calculate_business_context_multiplier { ctx with manufacturing_count := n }) ∧
    (∀ n, ctx.healthcare_count ≤ n →
      calculate_business_context_multiplier ctx ≤
        calculate_business_context_multiplier { ctx with healthcare_count := n }) ∧
    (∀ n, ctx.education_count ≤ n →
      calculate_business_context_multiplier ctx ≤
        calculate_business_context_multiplier { ctx with education_count := n }) ∧
    (∀ n, ctx.commercial_office_count ≤ n →
      calculate_business_context_multiplier ctx ≤
        calculate_business_context_multiplier { ctx with commercial_office_count := n }) ∧
    (∀ n, ctx.retail_count ≤ n →
      calculate_business_context_multiplier ctx ≤
        calculate_business_context_multiplier { ctx with retail_count := n }) ∧
    (∀ n, ctx.technology_hub_count ≤ n →
      calculate_business_context_multiplier ctx ≤
        calculate_business_context_multiplier { ctx with technology_hub_count := n }) ∧
    (∀ n, ctx.warehousing_count ≤ n →
      calculate_business_context_multiplier ctx ≤
        calculate_business_context_multiplier { ctx with warehousing_count := n }) ∧
    (∀ n, ctx.financial_count ≤ n →
      calculate_business_context_multiplier ctx ≤
        calculate_business_context_multiplier { ctx with financial_count := n }) := by
  have hden : (0 : ℚ) < 1 + ctx.radius_km / 5 := by linarith
  have hd : (0 : ℚ) ≤ 1 / (1 + ctx.radius_km / 5) := by positivity
  have hterm : ∀ (c : ℤ) (k : ℚ), 0 ≤ c → 0 ≤ k →
      0 ≤ (c : ℚ) * k * (1 / (1 + ctx.radius_km / 5)) * 0.02 := by
    intro c k hc hk
    have hc₁ : (0 : ℚ) ≤ (c : ℚ) := by exact_mod_cast hc
    have := mul_nonneg (mul_nonneg (mul_nonneg hc₁ hk) hd) (by norm_num : (0:ℚ) ≤ 0.02)
    linarith
  have hmono : ∀ (c n : ℤ) (k : ℚ), c ≤ n → 0 ≤ k →
      (c : ℚ) * k * (1 / (1 + ctx.radius_km / 5)) * 0.02 ≤
        (n : ℚ) * k * (1 / (1 + ctx.radius_km / 5)) * 0.02 := by
    intro c n k hcn hk
    have hc₁ : (c : ℚ) ≤ (n : ℚ) := by exact_mod_cast hcn
    have h₂ : (0 : ℚ) ≤ k * (1 / (1 + ctx.radius_km / 5)) * 0.02 :=
      mul_nonneg (mul_nonneg hk hd) (by norm_num)
    nlinarith [mul_nonneg (sub_nonneg.2 hc₁) h₂]
  refine ⟨?_, ?_, ?_, ?_, ?_, ?_, ?_, ?_, ?_, ?_⟩
  · simp only [calculate_business_context_multiplier]
    refine le_min ?_ (by norm_num)
    have t₁ := hterm _ _ hm (by norm_num : (0:ℚ) ≤ 0.15)
    have t₂ := hterm _ _ hh (by norm_num : (0:ℚ) ≤ 0.10)
    have t₃ := hterm _ _ he (by norm_num : (0:ℚ) ≤ 0.08)
    have t₄ := hterm _ _ ho (by norm_num : (0:ℚ) ≤ 0.05)
    have t₅ := hterm _ _ ht (by norm_num : (0:ℚ) ≤ 0.07)
    have t₆ := hterm _ _ hu (by norm_num : (0:ℚ) ≤ 0.20)
    have t₇ := hterm _ _ hw (by norm_num : (0:ℚ) ≤ 0.04)
    have t₈ := hterm _ _ hf (by norm_num : (0:ℚ) ≤ 0.06)
    linarith
  · simp only [calculate_business_context_multiplier]
    exact min_le_right _ _
  · intro n hn
    simp only [calculate_business_context_multiplier]
    refine min_le_min ?_ le_rfl
    have := hmono ctx.manufacturing_count n 0.15 hn (by norm_num)
    linarith
  · intro n hn
    simp only [calculate_business_context_multiplier]
    refine min_le_min ?_ le_rfl
    have := hmono ctx.healthcare_count n 0.10 hn (by norm_num)
    linarith
  · intro n hn
    simp only [calculate_business_context_multiplier]
    refine min_le_min ?_ le_rfl
    have := hmono ctx.education_count n 0.08 hn (by norm_num)
    linarith
  · intro n hn
    simp only [calculate_business_context_multiplier]
    refine min_le_min ?_ le_rfl
    have := hmono ctx.commercial_office_count n 0.05 hn (by norm_num)
    linarith
  · intro n hn
    simp only [calculate_business_context_multiplier]
    refine min_le_min ?_ le_rfl
    have := hmono ctx.retail_count n 0.07 hn (by norm_num)
    linarith
  · intro n hn
    simp only [calculate_business_context_multiplier]
    refine min_le_min ?_ le_rfl
    have := hmono ctx.technology_hub_count n 0.20 hn (by norm_num)
    linarith
  · intro n hn
    simp only [calculate_business_context_multiplier]
    refine min_le_min ?_ le_rfl
    have := hmono ctx.warehousing_count n 0.04 hn (by norm_num)
    linarith
  · intro n hn
    simp only [calculate_business_context_multiplier]
    refine min_le_min ?_ le_rfl
    have := hmono ctx.financial_count n 0.06 hn (by norm_num)
    linarith

/-- Claim C6, witness: bounds at the demo business context (2,1,0,5,3,1,2,1)
with radius 5. -/
theorem business_multiplier_bounded_monotone_witness :
    1 ≤ calculate_business_context_multiplier ⟨2, 1, 0, 5, 3, 1, 2, 1, 5⟩ ∧
      calculate_business_context_multiplier ⟨2, 1, 0, 5, 3, 1, 2, 1, 5⟩ ≤ 1.6 :=
  ⟨(business_multiplier_bounded_monotone ⟨2, 1, 0, 5, 3, 1, 2, 1, 5⟩ (by norm_num)
      (by norm_num) (by norm_num) (by norm_num) (by norm_num) (by norm_num)
      (by norm_num) (by norm_num) (by norm_num)).1,
   (business_multiplier_bounded_monotone ⟨2, 1, 0, 5, 3, 1, 2, 1, 5⟩ (by norm_num)
      (by norm_num) (by norm_num) (by norm_num) (by norm_num) (by norm_num)
      (by norm_num) (by norm_num) (by norm_num)).2.1⟩

/-- Claim C7: `assess_grid_impact` classifies
utilization = predicted/grid_capacity with strict thresholds —
HIGH_STRAIN iff utilization > 0.8, MODERATE_IMPACT iff
0.6 < utilization ≤ 0.8, LOW_IMPACT iff utilization ≤ 0.6 — so the
boundary values 0.6 and 0.8 fall into the lower band. -/
theorem grid_impact_thresholds (pred : ℚ) (grid : GridInfrastructure)
    (hg : grid.grid_capacity ≠ 0) :
    (assess_grid_impact pred grid = .HIGH_STRAIN ↔ 0.8 < pred / grid.grid_capacity) ∧
    (assess_grid_impact pred grid = .MODERATE_IMPACT ↔
      0.6 < pred / grid.grid_capacity ∧ pred / grid.grid_capacity ≤ 0.8) ∧
    (assess_grid_impact pred grid = .LOW_IMPACT ↔ pred / grid.grid_capacity ≤ 0.6) := by
  clear hg
  unfold assess_grid_impact
  split_ifs with h₁ h₂ <;> refine ⟨?_, ?_, ?_⟩ <;> constructor <;> simp_all <;> linarith

/-- Claim C7, witness: utilization 0.9 on a unit-capacity grid is
classified HIGH_STRAIN. -/
theorem grid_impact_thresholds_witness :
    (0.8 : ℚ) < 0.9 / 1 ∧
      assess_grid_impact 0.9 ⟨1, 345, 2, 0.95, 0.25⟩ = .HIGH_STRAIN :=
  ⟨by norm_num,
   ((grid_impact_thresholds 0.9 ⟨1, 345, 2, 0.95, 0.25⟩ (by norm_num)).1).mpr
     (by norm_num)⟩

/-- Claim C8: the generator is deterministic given a seed — two
`generate_dataset` runs with identical seed and sample count produce
identical record sequences, whatever the global random stream held before
each constructor ran, because `np.random.seed(seed)` in `__init__`
overwrites that state. -/
theorem generator_reproducible (seed : ℕ) (g₁ g₂ : RNG) (n : ℕ) :
    generate_dataset (generator_init seed g₁) n =
      generate_dataset (generator_init seed g₂) n := rfl

/-- Claim C9: `calculate_base_consumption` is total over arbitrary cooling
type strings — the overhead fraction is 0.25 exactly when the lowercased
string is "liquid" and 0.4 otherwise, and every string yields the closed
form below (nothing is rejected). -/
theorem cooling_efficiency_total (specs : DatacenterSpecs) :
    (pyLower specs.cooling_type = "liquid" → cooling_efficiency specs.cooling_type = 0.25) ∧
    (pyLower specs.cooling_type ≠ "liquid" → cooling_efficiency specs.cooling_type = 0.4) ∧
    calculate_base_consumption specs =
      ((specs.server_count : ℚ) / (42 / 2)) * specs.rack_density *
        (1 + specs.gpu_percentage * 2.5) * (1 + cooling_efficiency specs.cooling_type) *
        (1 + 0.15) * specs.pue_rating / 1000 := by
  refine ⟨fun h => by simp [cooling_efficiency, h],
    fun h => by simp [cooling_efficiency, h], ?_⟩
  simp only [calculate_base_consumption]
  ring

/-- Claim C9, witness: the mixed-case "LIQUID" matches case-insensitively
and the unsupported "Fan" silently gets the Air fraction. -/
theorem cooling_efficiency_total_witness :
    cooling_efficiency "LIQUID" = 0.25 ∧ cooling_efficiency "Fan" = 0.4 :=
  ⟨(cooling_efficiency_total ⟨0, 0, 0, 0, 0, "LIQUID", "X"⟩).1 (by decide),
   (cooling_efficiency_total ⟨0, 0, 0, 0, 0, "Fan", "X"⟩).2.1 (by decide)⟩

/-- Claim C10: for every state string missing from `STATE_DATA`,
`predict_impact` still succeeds and returns `state_datacenter_percentage`
0, `state_region` "Unknown" and `state_typical_pue` 1.4, with every other
output field computed as usual. -/
theorem predict_impact_unknown_state (specs : DatacenterSpecs) (ctx : BusinessContext)
    (grid : GridInfrastructure) (env : EnvironmentalData)
    (hs : state_lookup specs.state = none) (hg : grid.grid_capacity ≠ 0) :
    predict_impact specs ctx grid env = .ok {
      base_consumption_mw := pyRound 2 (calculate_base_consumption specs)
      business_multiplier := pyRound 3 (calculate_business_context_multiplier ctx)
      seasonal_factor := pyRound 3 (calculate_seasonal_factor env)
      predicted_demand_mw := pyRound 2 (calculate_base_consumption specs * calculate_business_context_multiplier ctx *
        calculate_seasonal_factor env)
      uncertainty_range_mw :=
        (pyRound 2 ((calculate_base_consumption specs * calculate_business_context_multiplier ctx *
        calculate_seasonal_factor env) * (1 - model_uncertainty)),
         pyRound 2 ((calculate_base_consumption specs * calculate_business_context_multiplier ctx *
        calculate_seasonal_factor env) * (1 + model_uncertainty)))
      grid_impact := assess_grid_impact (calculate_base_consumption specs * calculate_business_context_multiplier ctx *
        calculate_seasonal_factor env) grid
      grid_utilization := pyRound 3 ((calculate_base_consumption specs * calculate_business_context_multiplier ctx *
        calculate_seasonal_factor env) / grid.grid_capacity)
      grid_utilization_percent := pyRound 1 ((calculate_base_consumption specs * calculate_business_context_multiplier ctx *
        calculate_seasonal_factor env) / grid.grid_capacity * 100)
      confidence_score := pyRound 2 (1 - model_uncertainty)
      annual_energy_mwh := pyRound 0 ((calculate_base_consumption specs * calculate_business_context_multiplier ctx *
        calculate_seasonal_factor env) * 8760)
      co2_emissions_tons := pyRound 0 ((calculate_base_consumption specs * calculate_business_context_multiplier ctx *
        calculate_seasonal_factor env) * 8760 * 0.4)
      estimated_jobs := pyIntTrunc ((specs.server_count : ℚ) / 500)
      annual_energy_cost_usd := pyRound 0 ((calculate_base_consumption specs * calculate_business_context_multiplier ctx *
        calculate_seasonal_factor env) * 8760 * 50)
      state_datacenter_percentage := 0
      state_region := "Unknown"
      state_typical_pue := 1.4 } := by
  simp [predict_impact, state_info_default, hs, hg]

/-- Claim C10, witness: the unknown state "Atlantis" at a concrete
facility. -/
theorem predict_impact_unknown_state_witness :
    predict_impact ⟨5000, 15, 0.4, 1.3, 200000, "Liquid", "Atlantis"⟩ ⟨2, 1, 0, 5, 3, 1, 2, 1, 5⟩ ⟨850, 345, 2, 0.95, 0.25⟩ ⟨65, 60, 15, 0⟩ = .ok {
      base_consumption_mw := pyRound 2 (calculate_base_consumption ⟨5000, 15, 0.4, 1.3, 200000, "Liquid", "Atlantis"⟩)
      business_multiplier := pyRound 3 (calculate_business_context_multiplier ⟨2, 1, 0, 5, 3, 1, 2, 1, 5⟩)
      seasonal_factor := pyRound 3 (calculate_seasonal_factor ⟨65, 60, 15, 0⟩)
      predicted_demand_mw := pyRound 2 (calculate_base_consumption ⟨5000, 15, 0.4, 1.3, 200000, "Liquid", "Atlantis"⟩ *
        calculate_business_context_multiplier ⟨2, 1, 0, 5, 3, 1, 2, 1, 5⟩ *
        calculate_seasonal_factor ⟨65, 60, 15, 0⟩)
      uncertainty_range_mw :=
        (pyRound 2 ((calculate_base_consumption ⟨5000, 15, 0.4, 1.3, 200000, "Liquid", "Atlantis"⟩ *
        calculate_business_context_multiplier ⟨2, 1, 0, 5, 3, 1, 2, 1, 5⟩ *
        calculate_seasonal_factor ⟨65, 60, 15, 0⟩) * (1 - model_uncertainty)),
         pyRound 2 ((calculate_base_consumption ⟨5000, 15, 0.4, 1.3, 200000, "Liquid", "Atlantis"⟩ *
        calculate_business_context_multiplier ⟨2, 1, 0, 5, 3, 1, 2, 1, 5⟩ *
        calculate_seasonal_factor ⟨65, 60, 15, 0⟩) * (1 + model_uncertainty)))
      grid_impact := assess_grid_impact (calculate_base_consumption ⟨5000, 15, 0.4, 1.3, 200000, "Liquid", "Atlantis"⟩ *
        calculate_business_context_multiplier ⟨2, 1, 0, 5, 3, 1, 2, 1, 5⟩ *
        calculate_seasonal_factor ⟨65, 60, 15, 0⟩) ⟨850, 345, 2, 0.95, 0.25⟩
      grid_utilization := pyRound 3 ((calculate_base_consumption ⟨5000, 15, 0.4, 1.3, 200000, "Liquid", "Atlantis"⟩ *
        calculate_business_context_multiplier ⟨2, 1, 0, 5, 3, 1, 2, 1, 5⟩ *
        calculate_seasonal_factor ⟨65, 60, 15, 0⟩) / (⟨850, 345, 2, 0.95, 0.25⟩ : GridInfrastructure).grid_capacity)
      grid_utilization_percent := pyRound 1 ((calculate_base_consumption ⟨5000, 15, 0.4, 1.3, 200000, "Liquid", "Atlantis"⟩ *
        calculate_business_context_multiplier ⟨2, 1, 0, 5, 3, 1, 2, 1, 5⟩ *
        calculate_seasonal_factor ⟨65, 60, 15, 0⟩) / (⟨850, 345, 2, 0.95, 0.25⟩ : GridInfrastructure).grid_capacity * 100)
      confidence_score := pyRound 2 (1 - model_uncertainty)
      annual_energy_mwh := pyRound 0 ((calculate_base_consumption ⟨5000, 15, 0.4, 1.3, 200000, "Liquid", "Atlantis"⟩ *
        calculate_business_context_multiplier ⟨2, 1, 0, 5, 3, 1, 2, 1, 5⟩ *
        calculate_seasonal_factor ⟨65, 60, 15, 0⟩) * 8760)
      co2_emissions_tons := pyRound 0 ((calculate_base_consumption ⟨5000, 15, 0.4, 1.3, 200000, "Liquid", "Atlantis"⟩ *
        calculate_business_context_multiplier ⟨2, 1, 0, 5, 3, 1, 2, 1, 5⟩ *
        calculate_seasonal_factor ⟨65, 60, 15, 0⟩) * 8760 * 0.4)
      estimated_jobs := pyIntTrunc ((5000 : ℚ) / 500)
      annual_energy_cost_usd := pyRound 0 ((calculate_base_consumption ⟨5000, 15, 0.4, 1.3, 200000, "Liquid", "Atlantis"⟩ *
        calculate_business_context_multiplier ⟨2, 1, 0, 5, 3, 1, 2, 1, 5⟩ *
        calculate_seasonal_factor ⟨65, 60, 15, 0⟩) * 8760 * 50)
      state_datacenter_percentage := 0
      state_region := "Unknown"
      state_typical_pue := 1.4 } :=
  predict_impact_unknown_state ⟨5000, 15, 0.4, 1.3, 200000, "Liquid", "Atlantis"⟩ ⟨2, 1, 0, 5, 3, 1, 2, 1, 5⟩ ⟨850, 345, 2, 0.95, 0.25⟩ ⟨65, 60, 15, 0⟩ (by decide) (by norm_num)

end Datacenter
